import Mathlib

/-
  Verification of the timers demo server (src/index.js) against its
  natural-language specification.

  The embedding models the core of the program: the timer repository rows,
  the TimerViewModel projection, the connection registry (the clients Map),
  the push functions sendAllTimersMsg and sendActiveTimersMsg, the two
  mutating HTTP handlers, the WebSocket upgrade gate, the connection and
  close handlers, and the setInterval tick loop. JavaScript exceptions are
  modelled with Except; the ambient wall clock is passed as an explicit
  value where the code evaluates new Date().
-/

set_option autoImplicit false

abbrev UserId := String
abbrev TimerId := Nat
abbrev Channel := Nat

/-- A document of the timers collection: created by createTimer (lines 100-108)
without an end field; stopTimer sets end (line 113). Timestamps are epoch
milliseconds; `end_` models the `end` field, `none` meaning absent. -/
structure Timer where
  _id : TimerId
  userId : UserId
  description : String
  start : Nat
  end_ : Option Nat
  deriving DecidableEq

/-- The client-facing view produced by the TimerViewModel class
(src/index.js lines 150-163). Option fields model presence of the
corresponding JavaScript properties. -/
structure TimerViewModel where
  id : TimerId
  userId : UserId
  description : String
  start : Nat
  end_ : Option Nat
  isActive : Bool
  progress : Option Int
  duration : Option Int
  deriving DecidableEq

/-- Embedding of the TimerViewModel constructor (src/index.js lines 151-163),
instrumented with the global-clock effect: the constructor evaluates
new Date() at line 159 when the timer is active; `clock` is the ambient
wall-clock value at construction time, and the second component of the result
counts how many times the constructor read the global clock. isActive is
!timer.end; when active, progress = new Date() - start; otherwise
duration = end - start. -/
def TimerViewModel.construct (timer : Timer) (clock : Nat) : TimerViewModel × Nat :=
  match timer.end_ with
  | none =>
    ({ id := timer._id, userId := timer.userId, description := timer.description,
       start := timer.start, end_ := none, isActive := true,
       progress := some ((clock : Int) - (timer.start : Int)), duration := none }, 1)
  | some e =>
    ({ id := timer._id, userId := timer.userId, description := timer.description,
       start := timer.start, end_ := some e, isActive := false,
       progress := none, duration := some ((e : Int) - (timer.start : Int)) }, 0)

/-- The view produced by new TimerViewModel(timer) under ambient clock value
`clock`. -/
def TimerViewModel.ofTimer (timer : Timer) (clock : Nat) : TimerViewModel :=
  (TimerViewModel.construct timer clock).1

/-- The clients Map (src/index.js line 20): userId to live WebSocket channel. -/
abbrev Registry := List (UserId × Channel)

/-- clients.get(userId): first entry with a matching key (a Map holds at most
one entry per key). -/
def Registry.get : Registry → UserId → Option Channel
  | [], _ => none
  | p :: ps, u => if p.1 = u then some p.2 else Registry.get ps u

/-- clients.set(userId, ws) (line 270): Map.set replaces the value when the
key is present and appends a new entry otherwise. -/
def Registry.set : Registry → UserId → Channel → Registry
  | [], u, c => [(u, c)]
  | p :: ps, u, c => if p.1 = u then (u, c) :: ps else p :: Registry.set ps u c

/-- clients.delete(userId) (line 273): removes the entry with that key. -/
def Registry.delete : Registry → UserId → Registry
  | [], _ => []
  | p :: ps, u => if p.1 = u then Registry.delete ps u else p :: Registry.delete ps u

/-- clients.keys() (line 280): the registered userIds in insertion order. -/
def Registry.keys (r : Registry) : List UserId :=
  r.map Prod.fst

/-- Registries reachable from new Map() (line 20) by the only mutations the
program performs: clients.set (line 270) and clients.delete (line 273). -/
inductive Registry.Reachable : Registry → Prop
  | empty : Registry.Reachable []
  | set {r : Registry} (u : UserId) (c : Channel) :
      Registry.Reachable r → Registry.Reachable (Registry.set r u c)
  | del {r : Registry} (u : UserId) :
      Registry.Reachable r → Registry.Reachable (Registry.delete r u)

/-- A JavaScript runtime exception (only TypeError arises on the modelled
paths). -/
inductive JsError
  | typeError (msg : String)
  deriving DecidableEq

/-- The TypeError thrown by clients.get(userId).send(msg) when the Map has no
entry for userId: property access on undefined. -/
def undefinedSendError : JsError :=
  .typeError "Cannot read properties of undefined (reading send)"

/-- A push message as built at lines 134-138 and 142-146. -/
structure Msg where
  type : String
  timers : List TimerViewModel
  deriving DecidableEq

/-- fetchAllTimers (lines 121-123): every timer owned by userId, each wrapped
in a TimerViewModel. -/
def fetchAllTimers (db : List Timer) (userId : UserId) (clock : Nat) : List TimerViewModel :=
  (db.filter fun t => t.userId == userId).map fun t => TimerViewModel.ofTimer t clock

/-- fetchActiveTimers (lines 125-132): the Mongo filter is
userId and end: null, which matches documents whose end field is absent. -/
def fetchActiveTimers (db : List Timer) (userId : UserId) (clock : Nat) : List TimerViewModel :=
  (db.filter fun t => t.userId == userId && t.end_.isNone).map fun t =>
    TimerViewModel.ofTimer t clock

/-- sendAllTimersMsg (lines 134-140): builds the all_timers message, then
evaluates clients.get(userId).send(msg) - a TypeError when the registry has
no entry for userId. On success, returns the addressed channel and the
delivered message. -/
def sendAllTimersMsg (db : List Timer) (clients : Registry) (userId : UserId)
    (clock : Nat) : Except JsError (Channel × Msg) :=
  let msg : Msg := { type := "all_timers", timers := fetchAllTimers db userId clock }
  match Registry.get clients userId with
  | none => .error undefinedSendError
  | some ch => .ok (ch, msg)

/-- sendActiveTimersMsg (lines 142-148): same shape with the active_timers
type and the active-only query. -/
def sendActiveTimersMsg (db : List Timer) (clients : Registry) (userId : UserId)
    (clock : Nat) : Except JsError (Channel × Msg) :=
  let msg : Msg := { type := "active_timers", timers := fetchActiveTimers db userId clock }
  match Registry.get clients userId with
  | none => .error undefinedSendError
  | some ch => .ok (ch, msg)

/-- createTimer (lines 100-108): inserts a new timer document with start set
to the current time and no end field; freshId is the id allocated by the
store (insertedId). -/
def createTimer (db : List Timer) (userId : UserId) (description : String)
    (now : Nat) (freshId : TimerId) : TimerId × List Timer :=
  (freshId, db ++ [{ _id := freshId, userId := userId, description := description,
                     start := now, end_ := none }])

/-- The findOneAndUpdate call of stopTimer (lines 111-113): filter
by _id and userId - the filter has no condition on the end field - set
end to the current time on the first matching document, and return the
updated document (returnDocument after). -/
def findOneAndUpdateStop : List Timer → TimerId → UserId → Nat → Option Timer × List Timer
  | [], _, _, _ => (none, [])
  | t :: ts, i, u, now =>
    if t._id = i ∧ t.userId = u then
      let t2 : Timer := { t with end_ := some now }
      (some t2, t2 :: ts)
    else
      let r := findOneAndUpdateStop ts i u now
      (r.1, t :: r.2)

/-- stopTimer (lines 110-119): true iff findOneAndUpdate matched a document
(result.value non-null). -/
def stopTimer (db : List Timer) (i : TimerId) (userId : UserId) (now : Nat) :
    Bool × List Timer :=
  let r := findOneAndUpdateStop db i userId now
  (r.1.isSome, r.2)

/-- The HTTP responses produced by the two mutating handlers. -/
inductive HttpOutcome
  | status201 (id : TimerId)
  | status204
  | status404 (msg : String)
  | status401
  deriving DecidableEq

/-- The POST /api/timers handler (lines 194-203): 401 without an
authenticated user; otherwise insert the timer, await sendAllTimersMsg - an
exception there aborts the handler before res.status(201) runs - then answer
201 with the new id. The returned list is the timers collection afterwards. -/
def postTimers (db : List Timer) (clients : Registry) (user : Option UserId)
    (description : String) (clock : Nat) (freshId : TimerId) :
    Except JsError (HttpOutcome × List Timer) :=
  match user with
  | none => .ok (.status401, db)
  | some uid =>
    let r := createTimer db uid description clock freshId
    match sendAllTimersMsg r.2 clients uid clock with
    | .error e => .error e
    | .ok _ => .ok (.status201 r.1, r.2)

/-- The POST /api/timers/:id/stop handler (lines 205-217): 401 without a
user; on a successful stopTimer, await sendAllTimersMsg then 204; otherwise
404 with a message naming the id. -/
def postTimersStop (db : List Timer) (clients : Registry) (user : Option UserId)
    (i : TimerId) (clock : Nat) : Except JsError (HttpOutcome × List Timer) :=
  match user with
  | none => .ok (.status401, db)
  | some uid =>
    let r := stopTimer db i uid clock
    if r.1 then
      match sendAllTimersMsg r.2 clients uid clock with
      | .error e => .error e
      | .ok _ => .ok (.status204, r.2)
    else
      .ok (.status404 ("Unknown timer ID: " ++ toString i), db)

/-- Outcome of the upgrade listener. -/
inductive UpgradeOutcome
  /-- socket.write of the 401 status line followed by socket.destroy(): the
  handshake never completes. -/
  | rejected401
  /-- wss.handleUpgrade ran and the connection event fired carrying this
  userId (lines 261-264). -/
  | accepted (userId : UserId)
  deriving DecidableEq

/-- Lookup in the object returned by cookie.parse: cookies of the request by
name. -/
def cookieGet : List (String × String) → String → Option String
  | [], _ => none
  | p :: ps, k => if p.1 = k then some p.2 else cookieGet ps k

/-- The upgrade listener (lines 251-265). `header = none` models a request
with no Cookie header: req.headers cookie is undefined and cookie.parse
throws TypeError (argument str must be a string) before the userId check
runs. With a header present, the check !userId rejects both a missing and an
empty userId cookie value with a 401 status line and a destroyed socket. -/
def upgradeHandler (header : Option (List (String × String))) :
    Except JsError UpgradeOutcome :=
  match header with
  | none => .error (.typeError "argument str must be a string")
  | some cookies =>
    match cookieGet cookies "userId" with
    | none => .ok .rejected401
    | some v => if v = "" then .ok .rejected401 else .ok (.accepted v)

/-- The connection listener (lines 267-277): registers the channel under the
userId carried by the upgrade, installs the close handler, then pushes the
full snapshot over the updated registry. -/
def connectionHandler (db : List Timer) (clients : Registry) (userId : UserId)
    (ws : Channel) (clock : Nat) : Registry × Except JsError (Channel × Msg) :=
  let clients2 := Registry.set clients userId ws
  (clients2, sendAllTimersMsg db clients2 userId clock)

/-- The close callback installed at lines 272-274: clients.delete(userId),
keyed only by the userId captured at registration time - it does not check
that the stored channel is still the closing one. -/
def closeHandler (clients : Registry) (userId : UserId) : Registry :=
  Registry.delete clients userId

/-- The period of the setInterval at lines 279-283, in milliseconds. -/
def tickPeriodMs : Nat := 1000

/-- The for-of loop over clients.keys() in the setInterval callback
(lines 280-282): awaits the per-user push sequentially; the loop has no
try/catch, so the first rejection aborts it and escapes the callback.
Returns the per-user results of the pushes that completed, and the escaping
rejection, if any. -/
def tickLoop {α : Type} (push : UserId → Except JsError α) :
    List UserId → List (UserId × α) × Option JsError
  | [] => ([], none)
  | u :: us =>
    match push u with
    | .error e => ([], some e)
    | .ok a =>
      let r := tickLoop push us
      ((u, a) :: r.1, r.2)

/-- One execution of the setInterval callback (lines 279-283). -/
def tickOnce (db : List Timer) (clients : Registry) (clock : Nat) :
    List (UserId × (Channel × Msg)) × Option JsError :=
  tickLoop (fun u => sendActiveTimersMsg db clients u clock) (Registry.keys clients)

/-- A sample active timer document. -/
def tActive : Timer :=
  { _id := 1, userId := "u", description := "d", start := 0, end_ := none }

/-- A sample stopped timer document. -/
def tStopped : Timer :=
  { _id := 2, userId := "u", description := "d", start := 0, end_ := some 5 }

/-- A per-user push action whose first user fails, standing for a persistence
or send failure on the tick path. -/
def failingPush : UserId → Except JsError Unit := fun u =>
  if u = "alice" then .error (.typeError "store unavailable") else .ok ()

/-
  Helper lemmas about the registry, the stop operation, and the tick loop.
-/

theorem Registry.get_set_self (r : Registry) (u : UserId) (c : Channel) :
    Registry.get (Registry.set r u c) u = some c := by
  induction r with
  | nil => simp [Registry.set, Registry.get]
  | cons p ps ih =>
    by_cases h : p.1 = u
    · simp [Registry.set, Registry.get, h]
    · simp [Registry.set, Registry.get, h, ih]

theorem Registry.mem_keys_set {r : Registry} {u x : UserId} {c : Channel}
    (h : x ∈ Registry.keys (Registry.set r u c)) : x ∈ Registry.keys r ∨ x = u := by
  induction r with
  | nil =>
    simp [Registry.set, Registry.keys] at h
    exact Or.inr h
  | cons p ps ih =>
    by_cases hp : p.1 = u
    · simp [Registry.set, hp, Registry.keys] at h ⊢
      tauto
    · simp [Registry.set, hp, Registry.keys] at h ⊢
      rcases h with h | h
      · exact Or.inl (Or.inl h)
      · rcases ih (by simpa [Registry.keys] using h) with h2 | h2
        · exact Or.inl (Or.inr (by simpa [Registry.keys] using h2))
        · exact Or.inr h2

theorem Registry.nodup_keys_set (r : Registry) (u : UserId) (c : Channel)
    (h : (Registry.keys r).Nodup) : (Registry.keys (Registry.set r u c)).Nodup := by
  induction r with
  | nil => simp [Registry.set, Registry.keys]
  | cons p ps ih =>
    rw [Registry.keys, List.map_cons, List.nodup_cons] at h
    by_cases hp : p.1 = u
    · rw [show Registry.set (p :: ps) u c = (u, c) :: ps by simp [Registry.set, hp]]
      rw [Registry.keys, List.map_cons, List.nodup_cons]
      exact ⟨hp ▸ h.1, h.2⟩
    · rw [show Registry.set (p :: ps) u c = p :: Registry.set ps u c by
        simp [Registry.set, hp]]
      rw [Registry.keys, List.map_cons, List.nodup_cons]
      refine ⟨fun hmem => ?_, ih h.2⟩
      rcases Registry.mem_keys_set hmem with h2 | h2
      · exact h.1 h2
      · exact hp h2

theorem Registry.mem_keys_delete {r : Registry} {u x : UserId}
    (h : x ∈ Registry.keys (Registry.delete r u)) : x ∈ Registry.keys r := by
  induction r with
  | nil => simp [Registry.delete, Registry.keys] at h
  | cons p ps ih =>
    by_cases hp : p.1 = u
    · rw [show Registry.delete (p :: ps) u = Registry.delete ps u by
        simp [Registry.delete, hp]] at h
      rw [Registry.keys, List.map_cons]
      exact List.mem_cons_of_mem _ (ih h)
    · rw [show Registry.delete (p :: ps) u = p :: Registry.delete ps u by
        simp [Registry.delete, hp]] at h
      rw [Registry.keys, List.map_cons] at h ⊢
      rcases List.mem_cons.mp h with h1 | h1
      · exact List.mem_cons.mpr (Or.inl h1)
      · exact List.mem_cons.mpr (Or.inr (ih h1))

theorem Registry.nodup_keys_delete (r : Registry) (u : UserId)
    (h : (Registry.keys r).Nodup) : (Registry.keys (Registry.delete r u)).Nodup := by
  induction r with
  | nil => simp [Registry.delete, Registry.keys]
  | cons p ps ih =>
    rw [Registry.keys, List.map_cons, List.nodup_cons] at h
    by_cases hp : p.1 = u
    · rw [show Registry.delete (p :: ps) u = Registry.delete ps u by
        simp [Registry.delete, hp]]
      exact ih h.2
    · rw [show Registry.delete (p :: ps) u = p :: Registry.delete ps u by
        simp [Registry.delete, hp]]
      rw [Registry.keys, List.map_cons, List.nodup_cons]
      exact ⟨fun hmem => h.1 (Registry.mem_keys_delete hmem), ih h.2⟩

theorem Registry.get_delete_self (r : Registry) (u : UserId) :
    Registry.get (Registry.delete r u) u = none := by
  induction r with
  | nil => rfl
  | cons p ps ih =>
    by_cases hp : p.1 = u
    · simpa [Registry.delete, hp] using ih
    · simp [Registry.delete, Registry.get, hp, ih]

theorem Registry.get_of_mem_keys {r : Registry} {u : UserId}
    (h : u ∈ Registry.keys r) : ∃ c, Registry.get r u = some c := by
  induction r with
  | nil => simp [Registry.keys] at h
  | cons p ps ih =>
    by_cases hp : p.1 = u
    · exact ⟨p.2, by simp [Registry.get, hp]⟩
    · rw [Registry.keys, List.map_cons] at h
      rcases List.mem_cons.mp h with h1 | h1
      · exact absurd h1.symm hp
      · obtain ⟨c, hc⟩ := ih (by simpa [Registry.keys] using h1)
        exact ⟨c, by simp [Registry.get, hp, hc]⟩

theorem Registry.reachable_nodup {r : Registry} (h : Registry.Reachable r) :
    (Registry.keys r).Nodup := by
  induction h with
  | empty => simp [Registry.keys]
  | set u c _ ih => exact Registry.nodup_keys_set _ u c ih
  | del u _ ih => exact Registry.nodup_keys_delete _ u ih

theorem findOneAndUpdateStop_isSome (db : List Timer) (i : TimerId) (u : UserId)
    (now : Nat) :
    (findOneAndUpdateStop db i u now).1.isSome =
      db.any fun t => decide (t._id = i ∧ t.userId = u) := by
  induction db with
  | nil => simp [findOneAndUpdateStop]
  | cons t ts ih =>
    by_cases h : t._id = i ∧ t.userId = u
    · simp [findOneAndUpdateStop, h]
    · simp [findOneAndUpdateStop, h, ih]

theorem findOneAndUpdateStop_preserves_idOwner (db : List Timer) (i : TimerId)
    (u : UserId) (now : Nat) :
    ((findOneAndUpdateStop db i u now).2).map (fun t => (t._id, t.userId)) =
      db.map fun t => (t._id, t.userId) := by
  induction db with
  | nil => simp [findOneAndUpdateStop]
  | cons t ts ih =>
    by_cases h : t._id = i ∧ t.userId = u
    · simp [findOneAndUpdateStop, h]
    · simp [findOneAndUpdateStop, h, ih]

theorem stopTimer_success_any (db : List Timer) (i : TimerId) (u : UserId)
    (now : Nat) :
    (stopTimer db i u now).1 = db.any fun t => decide (t._id = i ∧ t.userId = u) := by
  simpa [stopTimer] using findOneAndUpdateStop_isSome db i u now

theorem any_of_map (l : List Timer) (p : TimerId × UserId → Bool) :
    ((l.map fun t => (t._id, t.userId)).any p) = l.any fun t => p (t._id, t.userId) := by
  induction l with
  | nil => rfl
  | cons a l ih => simp [ih]

theorem stopTimer_repeat_success (db : List Timer) (i : TimerId) (u : UserId)
    (now later : Nat) :
    (stopTimer (stopTimer db i u now).2 i u later).1 = (stopTimer db i u now).1 := by
  rw [stopTimer_success_any, stopTimer_success_any]
  have h1 : (((stopTimer db i u now).2.map fun t => (t._id, t.userId)).any
        fun p => decide (p.1 = i ∧ p.2 = u)) =
      ((db.map fun t => (t._id, t.userId)).any fun p => decide (p.1 = i ∧ p.2 = u)) := by
    rw [show (stopTimer db i u now).2 = (findOneAndUpdateStop db i u now).2 from rfl,
      findOneAndUpdateStop_preserves_idOwner db i u now]
  rw [any_of_map, any_of_map] at h1
  simpa using h1

theorem tickLoop_total {α : Type} (push : UserId → Except JsError α)
    (us : List UserId) (h : ∀ u ∈ us, ∃ a, push u = .ok a) :
    (tickLoop push us).2 = none ∧ (tickLoop push us).1.map Prod.fst = us := by
  induction us with
  | nil => exact ⟨rfl, rfl⟩
  | cons u us ih =>
    obtain ⟨a, ha⟩ := h u (List.mem_cons_self u us)
    have hrest := ih fun v hv => h v (List.mem_cons_of_mem u hv)
    simp [tickLoop, ha, hrest.1, hrest.2]

/-
  Claim theorems.
-/

/-- C1 fails as stated: with no Connection Registry entry for the userId, the
push is not silently skipped - clients.get(userId) is undefined, so the send
throws a TypeError, and the create-timer handler propagates it instead of
producing its 201 response. -/
theorem C1_counterexample :
    sendAllTimersMsg [] [] "u" 0 = .error undefinedSendError ∧
    sendActiveTimersMsg [] [] "u" 0 = .error undefinedSendError ∧
    postTimers [] [] (some "u") "work" 0 1 = .error undefinedSendError :=
  ⟨rfl, rfl, rfl⟩

/-- C1 amended: for every userId with no entry in the Connection Registry,
both push operations throw a TypeError (property access on the undefined
channel) rather than being silently skipped, and the mutating handlers
propagate that exception instead of producing their success responses (201
for create, 204 for stop): the HTTP response is not independent of push
outcome. -/
theorem C1_push_throws_without_channel (db : List Timer) (clients : Registry)
    (u : UserId) (clock : Nat) (desc : String) (freshId i : TimerId)
    (h : Registry.get clients u = none)
    (hstop : (stopTimer db i u clock).1 = true) :
    sendAllTimersMsg db clients u clock = .error undefinedSendError ∧
    sendActiveTimersMsg db clients u clock = .error undefinedSendError ∧
    postTimers db clients (some u) desc clock freshId = .error undefinedSendError ∧
    postTimersStop db clients (some u) i clock = .error undefinedSendError := by
  refine ⟨?_, ?_, ?_, ?_⟩ <;>
    simp [sendAllTimersMsg, sendActiveTimersMsg, postTimers, postTimersStop,
      createTimer, h, hstop]

/-- C1 witness: a concrete authenticated stop of an existing active timer with
an empty registry hits the TypeError on both modelled paths. -/
theorem C1_push_throws_without_channel_witness :
    sendAllTimersMsg [tActive] [] "u" 5 = .error undefinedSendError ∧
    postTimersStop [tActive] [] (some "u") 1 5 = .error undefinedSendError :=
  ⟨(C1_push_throws_without_channel [tActive] [] "u" 5 "d" 2 1 rfl (by decide)).1,
   (C1_push_throws_without_channel [tActive] [] "u" 5 "d" 2 1 rfl (by decide)).2.2.2⟩

/-- C2 fails as stated: the findOneAndUpdate filter is only on _id and userId,
with no condition on the end field, so an already-stopped timer matches again.
Stopping the same timer twice returns true both times, the second call
overwrites end, and the stop route pushes again and answers 204, not 404. -/
theorem C2_counterexample :
    (stopTimer [tActive] 1 "u" 10).1 = true ∧
    (stopTimer (stopTimer [tActive] 1 "u" 10).2 1 "u" 20).1 = true ∧
    (stopTimer (stopTimer [tActive] 1 "u" 10).2 1 "u" 20).2 =
      [{ tActive with end_ := some 20 }] ∧
    postTimersStop (stopTimer [tActive] 1 "u" 10).2 [("u", 0)] (some "u") 1 20 =
      .ok (.status204, [{ tActive with end_ := some 20 }]) :=
  ⟨by decide, by decide, by decide, rfl⟩

/-- C2 amended: stopTimer updates the timer (setting end to the current time)
iff some timer with the given id owned by userId exists, whether or not it is
still active; it returns false - and only then does the route skip the push
and answer 404 - exactly when no such timer exists. Calling it twice on the
same timer therefore returns true both times (the second call overwrites
end), not true then false. -/
theorem C2_stop_matches_regardless_of_active (db : List Timer) (i : TimerId)
    (u : UserId) (now later : Nat) (clients : Registry) :
    ((stopTimer db i u now).1 = true ↔ ∃ t ∈ db, t._id = i ∧ t.userId = u) ∧
    ((stopTimer (stopTimer db i u now).2 i u later).1 = (stopTimer db i u now).1) ∧
    ((stopTimer db i u now).1 = false →
      postTimersStop db clients (some u) i now =
        .ok (.status404 ("Unknown timer ID: " ++ toString i), db)) := by
  refine ⟨?_, stopTimer_repeat_success db i u now later, ?_⟩
  · rw [stopTimer_success_any]
    simp [List.any_eq_true]
  · intro hfail
    simp [postTimersStop, hfail]

/-- C2 witness: stopping a nonexistent timer id returns false and the route
answers 404 without pushing. -/
theorem C2_stop_matches_regardless_of_active_witness :
    postTimersStop [] [] (some "u") 1 5 =
      .ok (.status404 ("Unknown timer ID: " ++ toString 1), []) :=
  (C2_stop_matches_regardless_of_active [] 1 "u" 5 6 []).2.2 (by decide)

/-- C3: every registry reachable by the only mutations the program performs
has pairwise-distinct userIds (at most one channel per user at all times), and
registering a new channel for a userId that already has one replaces the old
mapping: get returns only the new channel afterwards, so pushes - which
address a user through get - can no longer reach the old channel. -/
theorem C3_registry_single_channel (r : Registry) (u : UserId)
    (cOld cNew : Channel) (hr : Registry.Reachable r)
    (_hold : Registry.get r u = some cOld) :
    (Registry.keys r).Nodup ∧
    Registry.Reachable (Registry.set r u cNew) ∧
    Registry.get (Registry.set r u cNew) u = some cNew ∧
    (cNew ≠ cOld → Registry.get (Registry.set r u cNew) u ≠ some cOld) := by
  refine ⟨Registry.reachable_nodup hr, Registry.Reachable.set u cNew hr,
    Registry.get_set_self r u cNew, fun hne hcontra => ?_⟩
  rw [Registry.get_set_self r u cNew] at hcontra
  exact hne (Option.some.inj hcontra)

/-- C3 witness: a registry holding one channel for user u, reachable from the
empty map, replaced by a new channel. -/
theorem C3_registry_single_channel_witness :
    (Registry.keys (Registry.set [] "u" 0)).Nodup ∧
    Registry.Reachable (Registry.set (Registry.set [] "u" 0) "u" 1) ∧
    Registry.get (Registry.set (Registry.set [] "u" 0) "u" 1) "u" = some 1 ∧
    ((1 : Channel) ≠ 0 →
      Registry.get (Registry.set (Registry.set [] "u" 0) "u" 1) "u" ≠ some 0) :=
  C3_registry_single_channel (Registry.set [] "u" 0) "u" 0 1
    (Registry.Reachable.set "u" 0 Registry.Reachable.empty) (by decide)

/-- C4: for every timer record and ambient clock value, the projection has
isActive exactly when the end field is absent, and the view carries exactly
one of the progress and duration fields - never both, never neither. -/
theorem C4_projection_shape (t : Timer) (clock : Nat) :
    (TimerViewModel.ofTimer t clock).isActive = t.end_.isNone ∧
    ((TimerViewModel.ofTimer t clock).progress.isSome ↔
      ¬ (TimerViewModel.ofTimer t clock).duration.isSome) := by
  cases h : t.end_ <;>
    simp [TimerViewModel.ofTimer, TimerViewModel.construct, h]

/-- C5 fails as stated: the current time is not an injected parameter of the
projection - the constructor reads the global clock itself. Constructing the
view of an active timer performs one new Date() read (the instrumented
constructor returns read count 1), and the resulting views under two
different ambient clock values differ. -/
theorem C5_counterexample :
    (TimerViewModel.construct tActive 100).2 = 1 ∧
    TimerViewModel.ofTimer tActive 100 ≠ TimerViewModel.ofTimer tActive 200 :=
  ⟨rfl, by decide⟩

/-- C5 amended: the projection is a deterministic function of the timer record
and the ambient wall-clock value at construction time, but that time is read
from the global clock inside the constructor rather than injected: building
the view of an active record reads the clock once and stores
progress = clock - start, while building the view of a stopped record reads
the clock zero times and is independent of the clock value. -/
theorem C5_projection_reads_ambient_clock (t : Timer) (n m e : Nat) :
    ((TimerViewModel.construct t n).2 = if t.end_.isNone then 1 else 0) ∧
    ((TimerViewModel.ofTimer t n).progress =
      if t.end_.isNone then some ((n : Int) - (t.start : Int)) else none) ∧
    (TimerViewModel.construct { t with end_ := some e } n =
      TimerViewModel.construct { t with end_ := some e } m) := by
  cases h : t.end_ <;>
    simp [TimerViewModel.ofTimer, TimerViewModel.construct, h]

/-- C6 fails as stated at one input: an upgrade request with no Cookie header
at all also lacks the user-identifier credential, but the handler throws
(cookie.parse of undefined) instead of answering 401 and destroying the
socket. -/
theorem C6_counterexample :
    upgradeHandler none = .error (.typeError "argument str must be a string") :=
  rfl

/-- C6 amended: for every channel-upgrade request that carries a Cookie header
whose parsed cookie set lacks a userId value (or carries an empty one), the
Channel Gate answers with the 401 status line and destroys the transport
without completing the handshake, and it never accepts - so the connection
event does not fire and no Registry entry is created. A request with no
Cookie header at all instead raises a TypeError before the check runs. -/
theorem C6_upgrade_rejects_missing_userId (cookies : List (String × String))
    (h : cookieGet cookies "userId" = none ∨ cookieGet cookies "userId" = some "") :
    upgradeHandler (some cookies) = .ok .rejected401 ∧
    ∀ v : UserId, upgradeHandler (some cookies) ≠ .ok (.accepted v) := by
  have h1 : upgradeHandler (some cookies) = .ok .rejected401 := by
    rcases h with h | h <;> simp [upgradeHandler, h]
  refine ⟨h1, fun v hv => ?_⟩
  rw [h1] at hv
  simp at hv

/-- C6 witness: a request whose cookies hold only a session token is rejected
with 401. -/
theorem C6_upgrade_rejects_missing_userId_witness :
    upgradeHandler (some [("sessionId", "abc")]) = .ok .rejected401 :=
  (C6_upgrade_rejects_missing_userId [("sessionId", "abc")] (Or.inl (by decide))).1

/-- C7: pushActive sends, to the channel registered for the user, a message of
type active_timers whose timers are exactly the projections of the timers
owned by that user with an absent end field (membership holds in both
directions); and the tick - fixed period 1000 ms - runs one such push for
every currently registered userId. -/
theorem C7_pushActive_exact_and_tick (db : List Timer) (clients : Registry)
    (u : UserId) (ch : Channel) (clock : Nat)
    (hch : Registry.get clients u = some ch) :
    (∃ msg, sendActiveTimersMsg db clients u clock = .ok (ch, msg) ∧
      msg.type = "active_timers" ∧
      (∀ t ∈ db, t.userId = u → t.end_ = none →
        TimerViewModel.ofTimer t clock ∈ msg.timers) ∧
      (∀ v ∈ msg.timers, ∃ t ∈ db, t.userId = u ∧ t.end_ = none ∧
        v = TimerViewModel.ofTimer t clock)) ∧
    tickPeriodMs = 1000 ∧
    (tickOnce db clients clock).2 = none ∧
    (tickOnce db clients clock).1.map Prod.fst = Registry.keys clients := by
  have hall : ∀ w ∈ Registry.keys clients,
      ∃ a, (fun w => sendActiveTimersMsg db clients w clock) w = .ok a := by
    intro w hw
    obtain ⟨c, hc⟩ := Registry.get_of_mem_keys hw
    exact ⟨(c, { type := "active_timers", timers := fetchActiveTimers db w clock }),
      by simp [sendActiveTimersMsg, hc]⟩
  have htick := tickLoop_total (fun w => sendActiveTimersMsg db clients w clock)
    (Registry.keys clients) hall
  refine ⟨⟨{ type := "active_timers", timers := fetchActiveTimers db u clock },
    by simp [sendActiveTimersMsg, hch], rfl, ?_, ?_⟩, rfl, htick.1, htick.2⟩
  · intro t ht hu he
    simp only [fetchActiveTimers, List.mem_map]
    refine ⟨t, ?_, rfl⟩
    rw [List.mem_filter]
    exact ⟨ht, by simp [hu, he]⟩
  · intro v hv
    simp only [fetchActiveTimers, List.mem_map] at hv
    obtain ⟨t, htf, rfl⟩ := hv
    rw [List.mem_filter] at htf
    have hcond := htf.2
    simp only [Bool.and_eq_true, beq_iff_eq, Option.isNone_iff_eq_none] at hcond
    exact ⟨t, htf.1, hcond.1, hcond.2, rfl⟩

/-- C7 witness: one registered user with one active and one stopped timer. -/
theorem C7_pushActive_exact_and_tick_witness :
    tickPeriodMs = 1000 ∧
    (tickOnce [tActive, tStopped] [("u", 0)] 3).1.map Prod.fst =
      Registry.keys [("u", 0)] :=
  ⟨(C7_pushActive_exact_and_tick [tActive, tStopped] [("u", 0)] "u" 0 3
      (by decide)).2.1,
   (C7_pushActive_exact_and_tick [tActive, tStopped] [("u", 0)] "u" 0 3
      (by decide)).2.2.2⟩

/-- C8 fails as stated: the tick loop has no error handling, so a failure
while pushing to the first registered user aborts the cycle - the second
registered user receives no push in that cycle - and the rejection escapes the
setInterval callback instead of being silently skipped. -/
theorem C8_counterexample :
    tickLoop failingPush ["alice", "bob"] =
      ([], some (.typeError "store unavailable")) ∧
    "bob" ∉ (tickLoop failingPush ["alice", "bob"]).1.map Prod.fst :=
  ⟨rfl, by decide⟩

/-- C8 amended: a persistence or send failure while pushing to one registered
userId is not caught on the tick path: it aborts the tick cycle, so every
user later in the iteration order receives no push in that cycle, and the
rejection escapes the setInterval callback rather than being skipped. -/
theorem C8_tick_failure_aborts_cycle {α : Type} (push : UserId → Except JsError α)
    (u : UserId) (us : List UserId) (e : JsError) (h : push u = .error e) :
    tickLoop push (u :: us) = ([], some e) := by
  simp [tickLoop, h]

/-- C8 witness: a push that fails for the first of three registered users. -/
theorem C8_tick_failure_aborts_cycle_witness :
    tickLoop failingPush ("alice" :: ["bob", "carol"]) =
      ([], some (.typeError "store unavailable")) :=
  C8_tick_failure_aborts_cycle failingPush "alice" ["bob", "carol"]
    (.typeError "store unavailable") rfl

/-- C9: any non-empty string v presented as the userId cookie passes the
Channel Gate - whose decision is a function of the cookie header alone, with
no session or user store among its inputs - and the connection handler then
registers the channel under key v; afterwards both push kinds addressed to
userId v are delivered to that channel. -/
theorem C9_channel_identity_client_asserted (v : UserId)
    (cookies : List (String × String)) (r : Registry) (ch : Channel)
    (db : List Timer) (clock : Nat) (hv : v ≠ "")
    (hc : cookieGet cookies "userId" = some v) :
    upgradeHandler (some cookies) = .ok (.accepted v) ∧
    (connectionHandler db r v ch clock).1 = Registry.set r v ch ∧
    Registry.get (Registry.set r v ch) v = some ch ∧
    (∃ msg, sendAllTimersMsg db (Registry.set r v ch) v clock = .ok (ch, msg)) ∧
    (∃ msg, sendActiveTimersMsg db (Registry.set r v ch) v clock = .ok (ch, msg)) := by
  refine ⟨by simp [upgradeHandler, hc, hv], rfl, Registry.get_set_self r v ch, ?_, ?_⟩
  · exact ⟨{ type := "all_timers", timers := fetchAllTimers db v clock },
      by simp [sendAllTimersMsg, Registry.get_set_self]⟩
  · exact ⟨{ type := "active_timers", timers := fetchActiveTimers db v clock },
      by simp [sendActiveTimersMsg, Registry.get_set_self]⟩

/-- C9 witness: an arbitrary self-chosen identity string passes the gate and
receives pushes addressed to that id. -/
theorem C9_channel_identity_client_asserted_witness :
    upgradeHandler (some [("userId", "mallory")]) = .ok (.accepted "mallory") ∧
    Registry.get (Registry.set [] "mallory" 7) "mallory" = some 7 :=
  ⟨(C9_channel_identity_client_asserted "mallory" [("userId", "mallory")] [] 7 [] 0
      (by decide) (by decide)).1,
   (C9_channel_identity_client_asserted "mallory" [("userId", "mallory")] [] 7 [] 0
      (by decide) (by decide)).2.2.1⟩

/-- C10: the close callback removes the Registry entry for its captured userId
unconditionally - for every registry state, after it runs the user has no
entry, whatever channel was stored - so when a superseded channel closes
after a newer channel was registered for the same userId, the newer channel
entry is deleted and the user is left with no registered channel. -/
theorem C10_close_deletes_by_userId_only (r : Registry) (u : UserId)
    (cOld cNew : Channel) :
    Registry.get (closeHandler r u) u = none ∧
    Registry.get
      (closeHandler (Registry.set (Registry.set r u cOld) u cNew) u) u = none :=
  ⟨Registry.get_delete_self r u,
   Registry.get_delete_self (Registry.set (Registry.set r u cOld) u cNew) u⟩
